import Mathlib

/-!
# mxtrack file monitor: lifecycle, directory filter and ring consumer loop

A shallow embedding of `internal/monitor/file/file.go` and of the monitor
supervision in `cmd/main.go`.

* Go strings are byte sequences (`len` counts bytes, `strings.HasPrefix`
  compares bytes), so a Go string is a `List UInt8`.
* Kernel resources (kprobe links, the loaded BPF object set, the ring buffer
  reader) are handles into an explicit `World`, which records which handles
  are open and the sequence of resource operations attempted.
* The results of the external calls made by `Start` (`loadBpfObjects`,
  `link.Kprobe`, `ringbuf.NewReader`) are supplied by a `StartEnv`.
* `slog` calls of file.go are not modelled, except the records that the
  consumer loop emits.
-/

namespace MxTrack

/-! ## Go strings -/

/-- A Go string: an immutable sequence of bytes. -/
abbrev GoString := List UInt8

/-- The bytes of an ASCII literal (used for concrete inputs only). -/
def ascii (s : String) : GoString :=
  s.toList.map (fun c => UInt8.ofNat c.toNat)

/-- Go `strings.HasPrefix(s, p)`:
`len(s) >= len(p) && s[:len(p)] == p`. -/
def HasPrefix (s p : GoString) : Bool :=
  decide (p.length ≤ s.length) && (s.take p.length == p)

/-! ## Resources -/

/-! A kernel resource is named by a handle, a natural number; handles are
handed out in increasing order. -/

/-- Resource operations attempted by the monitor, in program order. -/
inductive Op where
  | loadBpfObjects (h : Nat)
  | loadBpfObjectsFailed
  | kprobe (name : String) (h : Nat)
  | kprobeFailed (name : String)
  | newReader (h : Nat)
  | newReaderFailed
  | closeLink (h : Nat)
  | closeObjs (h : Nat)
  | closeReader (h : Nat)
  | goHandleEvents
  deriving DecidableEq, Repr

/-- The resources outside the monitor value: the handles currently open, by
kind, the next fresh handle, and the operations attempted so far. -/
structure World where
  next : Nat
  openLinks : List Nat
  openObjs : List Nat
  openReaders : List Nat
  trace : List Op
  deriving DecidableEq, Repr

/-- A world with nothing open. -/
def World.empty : World :=
  { next := 0, openLinks := [], openObjs := [], openReaders := [], trace := [] }

/-- Every open handle was handed out earlier. -/
def World.WF (w : World) : Prop :=
  (∀ h ∈ w.openLinks, h < w.next) ∧ (∀ h ∈ w.openObjs, h < w.next) ∧
    (∀ h ∈ w.openReaders, h < w.next)

/-- A successful `loadBpfObjects`: a fresh open object set. -/
def World.load (w : World) : Nat × World :=
  (w.next, { w with next := w.next + 1, openObjs := w.openObjs ++ [w.next],
                    trace := w.trace ++ [Op.loadBpfObjects w.next] })

/-- A successful `link.Kprobe`: a fresh attached link. -/
def World.attach (w : World) (name : String) : Nat × World :=
  (w.next, { w with next := w.next + 1, openLinks := w.openLinks ++ [w.next],
                    trace := w.trace ++ [Op.kprobe name w.next] })

/-- A successful `ringbuf.NewReader`: a fresh open reader. -/
def World.mkReader (w : World) : Nat × World :=
  (w.next, { w with next := w.next + 1, openReaders := w.openReaders ++ [w.next],
                    trace := w.trace ++ [Op.newReader w.next] })

/-- The method `link.Close()` of one link. -/
def World.closeLink (w : World) (h : Nat) : World :=
  { w with openLinks := w.openLinks.filter (fun x => x != h),
           trace := w.trace ++ [Op.closeLink h] }

/-- The method `objs.Close()` of the object set. -/
def World.closeObjs (w : World) (h : Nat) : World :=
  { w with openObjs := w.openObjs.filter (fun x => x != h),
           trace := w.trace ++ [Op.closeObjs h] }

/-- The method `reader.Close()` of the ring buffer reader. -/
def World.closeReader (w : World) (h : Nat) : World :=
  { w with openReaders := w.openReaders.filter (fun x => x != h),
           trace := w.trace ++ [Op.closeReader h] }

/-- An entry appended to the operation sequence. -/
def World.note (w : World) (o : Op) : World :=
  { w with trace := w.trace ++ [o] }

/-- The loop `for _, link := range links { link.Close() }`. -/
def closeLinks : List Nat → World → World
  | [], w => w
  | l :: ls, w => closeLinks ls (w.closeLink l)

/-! ## The monitor -/

/-- The fields of `Monitor` that file.go uses (the struct is declared outside
file.go; `eventChan` is only ever returned by `Collect`). A nil pointer is
`none`, a nil slice is `[]`. -/
structure Monitor where
  links : List Nat
  objs : Option Nat
  reader : Option Nat
  running : Bool
  dirs : List GoString
  deriving DecidableEq, Repr

/-- The monitor that `NewMonitor` returns (when `rlimit.RemoveMemlock`
succeeds): idle, with no directory and no resource. -/
def NewMonitor : Monitor :=
  { links := [], objs := none, reader := none, running := false, dirs := [] }

/-- Errors returned by the methods of the monitor. -/
inductive Err where
  | pathTooLong (path : GoString)
  | alreadyRunning
  | loadingObjects
  | attachingKprobe (name : String)
  | creatingReader
  deriving DecidableEq, Repr

/-- The result of a method: the error returned (`none` is nil), the monitor
and the world afterwards. -/
structure Ret where
  err : Option Err
  m : Monitor
  w : World
  deriving DecidableEq, Repr

/-- The method `AddMonitoredDir`. -/
def AddMonitoredDir (m : Monitor) (path : GoString) : Option Err × Monitor :=
  if path.length ≥ 256 then
    (some (Err.pathTooLong path), m)
  else
    (none, { m with dirs := m.dirs ++ [path] })

/-- The outcomes of the external calls of one `Start`: whether
`loadBpfObjects` succeeds, whether the `link.Kprobe` call of the probe at
each position (from 0) succeeds, whether `ringbuf.NewReader` succeeds. -/
structure StartEnv where
  loadOk : Bool
  attachOk : Nat → Bool
  readerOk : Bool

/-- The probe names of the file monitor, in attachment order. -/
def fileProbes : List String :=
  ["do_sys_openat2", "do_unlinkat", "do_mkdirat", "do_renameat2"]

/-- The call `m.objs.Close()`; `m.objs` is non-nil wherever `Start` makes it. -/
def closeObjsOf (objs : Option Nat) (w : World) : World :=
  match objs with
  | some o => w.closeObjs o
  | none => w

/-- The loop `for _, probe := range probes` of `Start`, from position `i`:
on the first failing attachment every link of `m.links` and the object set
are closed and the error is returned; `m.links` and `m.objs` are not reset. -/
def attachLoop (env : StartEnv) : List String → Nat → Monitor → World → Ret
  | [], _, m, w => { err := none, m := m, w := w }
  | name :: rest, i, m, w =>
    if env.attachOk i then
      let kp := w.attach name
      attachLoop env rest (i + 1) { m with links := m.links ++ [kp.1] } kp.2
    else
      let w1 := closeLinks m.links (w.note (Op.kprobeFailed name))
      let w2 := closeObjsOf m.objs w1
      { err := some (Err.attachingKprobe name), m := m, w := w2 }

/-- The method `Start`, for a given probe list. -/
def StartWith (probes : List String) (env : StartEnv) (m : Monitor) (w : World) : Ret :=
  if m.running then
    { err := some Err.alreadyRunning, m := m, w := w }
  else if !env.loadOk then
    { err := some Err.loadingObjects, m := m, w := w.note Op.loadBpfObjectsFailed }
  else
    let ld := w.load
    let m1 := { m with objs := some ld.1 }
    let r := attachLoop env probes 0 m1 ld.2
    match r.err with
    | some e => { err := some e, m := r.m, w := r.w }
    | none =>
      if !env.readerOk then
        let w1 := closeLinks r.m.links (r.w.note Op.newReaderFailed)
        let w2 := closeObjsOf r.m.objs w1
        { err := some Err.creatingReader, m := r.m, w := w2 }
      else
        let rd := r.w.mkReader
        let m2 := { r.m with reader := some rd.1 }
        { err := none, m := { m2 with running := true }, w := rd.2.note Op.goHandleEvents }

/-- The method `Start` of the file monitor. -/
def Start (env : StartEnv) (m : Monitor) (w : World) : Ret :=
  StartWith fileProbes env m w

/-- A `context.Context` as `Stop` observes it: whether its `Done()` channel is
ready when the `select` of `Stop` runs. -/
structure Context where
  done : Bool
  deriving DecidableEq, Repr

/-- The context of `context.WithTimeout(ctx, 5*time.Second)` at the `select`:
done when the parent is done or when the five seconds have passed
(`expired`). -/
def WithTimeout (ctx : Context) (expired : Bool) : Context :=
  { done := ctx.done || expired }

/-- The method `Stop`. `expired` tells whether five seconds pass between the
creation of the timeout context and the `select`. -/
def Stop (ctx : Context) (expired : Bool) (m : Monitor) (w : World) : Ret :=
  if !m.running then
    { err := none, m := m, w := w }
  else
    let timeoutCtx := WithTimeout ctx expired
    let w1 := match m.reader with
      | some r => w.closeReader r
      | none => w
    if timeoutCtx.done then
      { err := none, m := m, w := w1 }
    else
      let w2 := closeLinks m.links w1
      let m1 := { m with links := [] }
      let w3 := closeObjsOf m1.objs w2
      let m2 := { m1 with objs := none }
      { err := none, m := { m2 with running := false }, w := w3 }

/-- The goroutine that `main` launches for the file monitor (main.go, lines
106 to 115), in a run where the context is cancelled: `Start`; on an error
the goroutine returns; otherwise it waits for `ctx.Done()` and then calls
`Stop` with that same, by now done, context. -/
def fileTask (env : StartEnv) (expired : Bool) (m : Monitor) (w : World) : Ret :=
  let r := Start env m w
  match r.err with
  | some e => { err := some e, m := r.m, w := r.w }
  | none => Stop { done := true } expired r.m r.w

/-! ## Event records -/

/-- Modelled from the spec: the widths of the fixed-width byte arrays of the
`Event` record, whose declaration is outside file.go. -/
structure Layout where
  commLen : Nat
  pcommLen : Nat
  fileNameLen : Nat
  deriving DecidableEq, Repr

/-- Modelled from the spec: the `Event` record, whose declaration is outside
file.go: event type, pid, ppid and uid as unsigned 32-bit numbers, then the
byte arrays comm, pcomm and file name, in that order. -/
structure Event where
  EventType : Nat
  Pid : Nat
  Ppid : Nat
  Uid : Nat
  Comm : List UInt8
  Pcomm : List UInt8
  FileName : List UInt8
  deriving DecidableEq, Repr

/-- The width of the record: the sum of its field widths. -/
def Layout.size (L : Layout) : Nat :=
  4 + 4 + 4 + 4 + L.commLen + L.pcommLen + L.fileNameLen

/-- Go `binary.LittleEndian.Uint32`. -/
def le32 (b : List UInt8) : Nat :=
  (b.getD 0 0).toNat + (b.getD 1 0).toNat * 2 ^ 8 + (b.getD 2 0).toNat * 2 ^ 16 +
    (b.getD 3 0).toNat * 2 ^ 24

/-- The fields of an `Event` taken in order from a buffer of the record width. -/
def parseEvent (L : Layout) (bs : List UInt8) : Event :=
  { EventType := le32 (bs.take 4)
    Pid := le32 ((bs.drop 4).take 4)
    Ppid := le32 ((bs.drop 8).take 4)
    Uid := le32 ((bs.drop 12).take 4)
    Comm := (bs.drop 16).take L.commLen
    Pcomm := (bs.drop (16 + L.commLen)).take L.pcommLen
    FileName := (bs.drop (16 + L.commLen + L.pcommLen)).take L.fileNameLen }

/-- The errors of `io.ReadFull`. -/
inductive DecodeError where
  | EOF
  | ErrUnexpectedEOF
  deriving DecidableEq, Repr

/-- Go `binary.Read(bytes.NewBuffer(raw), binary.LittleEndian, &event)`: it
reads exactly the record width with `io.ReadFull` (`EOF` when nothing could
be read, `ErrUnexpectedEOF` when fewer bytes than the width) and decodes the
fields from those bytes; bytes of the buffer past the width stay unread. -/
def binaryRead (L : Layout) (raw : List UInt8) : Except DecodeError Event :=
  if raw.length < L.size then
    if raw.length = 0 then Except.error DecodeError.EOF
    else Except.error DecodeError.ErrUnexpectedEOF
  else
    Except.ok (parseEvent L (raw.take L.size))

/-- The event type constants `EventOpen` ... `EventRmdir`, declared outside
file.go. -/
structure EventConsts where
  EventOpen : Nat
  EventCreate : Nat
  EventUnlink : Nat
  EventMkdir : Nat
  EventRmdir : Nat

/-- The function `getEventTypeName`. -/
def getEventTypeName (c : EventConsts) (eventType : Nat) : String :=
  if eventType = c.EventOpen then "OPEN"
  else if eventType = c.EventCreate then "CREATE"
  else if eventType = c.EventUnlink then "UNLINK"
  else if eventType = c.EventMkdir then "MKDIR"
  else if eventType = c.EventRmdir then "RMDIR"
  else "UNKNOWN"

/-- The functions of `pkg/utils` that the consumer loop calls; the package is
outside the sources here. -/
structure Utils where
  CleanString : List UInt8 → GoString
  CleanProcessName : List UInt8 → GoString

/-- Modelled from the spec: the sanitizer of `pkg/utils`, "a trimmed string
ending at the first null byte, or the full width if no null is present". -/
def cleanAtNull (b : List UInt8) : GoString :=
  b.takeWhile (fun x => x != 0)

/-- Go `filepath.Base` on a Unix path. -/
def Base (path : GoString) : GoString :=
  if path = [] then ascii "."
  else
    let p := (path.reverse.dropWhile (fun x => x == 47)).reverse
    let q := (p.reverse.takeWhile (fun x => x != 47)).reverse
    if q = [] then ascii "/" else q

/-! ## The consumer loop -/

/-- The loop over `m.dirs` that sets `isMonitored`. -/
def isMonitored : List GoString → GoString → Bool
  | [], _ => false
  | dir :: dirs, fileName =>
    if HasPrefix fileName dir then true else isMonitored dirs fileName

/-- The record that the loop logs as "File operation". -/
structure FileOp where
  typeName : String
  path : GoString
  filename : GoString
  process : GoString
  pid : Nat
  parentProcess : GoString
  ppid : Nat
  uid : Nat
  eventTypeCode : Nat
  deriving DecidableEq, Repr

/-- What the loop is configured with: the helpers and declarations from
outside file.go, and the directory list of the monitor. -/
structure LoopCfg where
  utils : Utils
  consts : EventConsts
  layout : Layout
  dirs : List GoString

/-- The "File operation" record of a decoded event. -/
def fileOpOf (c : LoopCfg) (event : Event) : FileOp :=
  let fileName := c.utils.CleanString event.FileName
  { typeName := getEventTypeName c.consts event.EventType
    path := fileName
    filename := Base fileName
    process := c.utils.CleanProcessName event.Comm
    pid := event.Pid
    parentProcess := c.utils.CleanProcessName event.Pcomm
    ppid := event.Ppid
    uid := event.Uid
    eventTypeCode := event.EventType }

/-- What one iteration of the loop observes: the context is done, or the
`default` branch runs and `m.reader.Read()` returns `ringbuf.ErrClosed`, some
other error, or a record with the given raw sample. -/
inductive Step where
  | ctxDone
  | errClosed
  | readErr
  | sample (raw : List UInt8)
  deriving DecidableEq, Repr

/-- Where the loop goroutine stands after the observations given to it: it
has returned, it is blocked for ever in a send on `errChan`, or it is alive
and about to start its next iteration. -/
inductive Status where
  | returned
  | blockedOnSend
  | alive
  deriving DecidableEq, Repr

/-- The bookkeeping of the loop goroutine: sends completed on `errChan`,
calls of `m.reader.Read()`, parse errors logged, events ignored, records
emitted (oldest first). -/
structure LoopState where
  sends : Nat
  reads : Nat
  parseErrors : Nat
  ignored : Nat
  emitted : List FileOp
  deriving DecidableEq, Repr

/-- The state in which the loop goroutine starts. -/
def LoopState.init : LoopState :=
  { sends := 0, reads := 0, parseErrors := 0, ignored := 0, emitted := [] }

/-- The capacity of `errChan`: `make(chan error, 1)`. -/
def errChanCap : Nat := 1

/-- The receives that `handleEvents` performs on `errChan` over its whole
life: its closing `select` receives once, in either branch, and then
`handleEvents` returns. -/
def errChanReceives : Nat := 1

/-- A send `errChan <- v` by the loop goroutine. It completes when the buffer
has room or a receive is still to come (a send that finds the buffer full
before that receive waits for it and then completes), so the first
`errChanCap + errChanReceives` sends complete in every interleaving; a later
send never does (`none`). -/
def sendErrChan (st : LoopState) : Option LoopState :=
  if st.sends < errChanCap + errChanReceives then
    some { st with sends := st.sends + 1 }
  else none

/-- The goroutine started inside `handleEvents`: the `for` loop, run over a
sequence of observations. -/
def readLoop (c : LoopCfg) : List Step → LoopState → Status × LoopState
  | [], st => (Status.alive, st)
  | Step.ctxDone :: _, st =>
    match sendErrChan st with
    | some st1 => (Status.returned, st1)
    | none => (Status.blockedOnSend, st)
  | Step.errClosed :: _, st =>
    let st0 := { st with reads := st.reads + 1 }
    match sendErrChan st0 with
    | some st1 => (Status.returned, st1)
    | none => (Status.blockedOnSend, st0)
  | Step.readErr :: rest, st =>
    let st0 := { st with reads := st.reads + 1 }
    match sendErrChan st0 with
    | some st1 => readLoop c rest st1
    | none => (Status.blockedOnSend, st0)
  | Step.sample raw :: rest, st =>
    let st0 := { st with reads := st.reads + 1 }
    match binaryRead c.layout raw with
    | Except.error _ => readLoop c rest { st0 with parseErrors := st0.parseErrors + 1 }
    | Except.ok event =>
      if isMonitored c.dirs (c.utils.CleanString event.FileName) then
        readLoop c rest { st0 with emitted := st0.emitted ++ [fileOpOf c event] }
      else
        readLoop c rest { st0 with ignored := st0.ignored + 1 }

/-- The loop goroutine of `handleEvents` from its start. -/
def handleEvents (c : LoopCfg) (steps : List Step) : Status × LoopState :=
  readLoop c steps LoopState.init

/-! ## The orchestrator (cmd/main.go)

The monitors are driven through the `Collector` interface, so what `main`
sees of a monitor is whether its constructor and its `Start` succeed and
whether its `Stop` returns. Each goroutine is recorded with its own state and
log lines; the goroutines share nothing with `main` but the context and the
wait group. -/

/-- What `main` meets for one monitor: whether the configuration enables it,
whether `NewMonitor` succeeds, whether `Start` returns nil, whether `Stop`
returns within the five seconds that `main` waits. -/
structure MonitorEnv where
  enabled : Bool
  newOk : Bool
  startOk : Bool
  stopReturns : Bool
  deriving DecidableEq, Repr

/-- The surroundings of one run of `main`: the outcomes of option parsing,
option validation, configuration loading and logger initialisation, the
three monitors, the configured directories, and whether SIGINT or SIGTERM is
ever delivered. -/
structure MainEnv where
  parseOk : Bool
  validateOk : Bool
  configOk : Bool
  loggerOk : Bool
  file : MonitorEnv
  exec : MonitorEnv
  network : MonitorEnv
  directories : List GoString
  signal : Bool
  deriving DecidableEq, Repr

/-- Where a monitor goroutine stands: `Start` failed and the goroutine
returned; `Start` succeeded and the goroutine waits on `ctx.Done()`; the
context was cancelled and the goroutine is inside `Stop(ctx)`; `Stop`
returned and so did the goroutine. -/
inductive TaskState where
  | startFailed
  | waiting
  | inStop
  | stopped
  deriving DecidableEq, Repr

/-- A monitor goroutine: the monitor kind, its state, its log lines. -/
structure Task where
  kind : String
  state : TaskState
  log : List String
  deriving DecidableEq, Repr

/-- Whether the goroutine has returned (its deferred `wg.Done()` has run). -/
def Task.returned (t : Task) : Bool :=
  match t.state with
  | TaskState.startFailed => true
  | TaskState.stopped => true
  | _ => false

/-- How the process stands: it has exited with a status, or `main` is blocked
in `<-sigChan`. -/
inductive Outcome where
  | exit (code : Nat)
  | waitingForSignal
  deriving DecidableEq, Repr

/-- The result of a run of `main`: the outcome, the lines logged by the main
goroutine, and the monitor goroutines launched. -/
structure MainResult where
  outcome : Outcome
  log : List String
  tasks : List Task
  deriving DecidableEq, Repr

/-- The loop of `main` over the configured directories: a directory that
`AddMonitoredDir` rejects is logged and skipped. -/
def registerDirs : List GoString → Monitor → Monitor × List String
  | [], m => (m, [])
  | dir :: dirs, m =>
    match (AddMonitoredDir m dir).1 with
    | some _ =>
      let r := registerDirs dirs m
      (r.1, "Add Monitored Directory Failed" :: r.2)
    | none => registerDirs dirs (AddMonitoredDir m dir).2

/-- The goroutine of the file monitor (main.go, lines 106 to 115), before or
after the cancellation of the context: a failing `Start` is logged and the
goroutine returns; otherwise it waits on `ctx.Done()` and then calls
`Stop(ctx)`. -/
def fileGoroutine (e : MonitorEnv) (cancelled : Bool) : Task :=
  if !e.startOk then
    { kind := "file", state := TaskState.startFailed, log := ["Start File Monitor Failed"] }
  else if !cancelled then
    { kind := "file", state := TaskState.waiting, log := [] }
  else if !e.stopReturns then
    { kind := "file", state := TaskState.inStop, log := [] }
  else
    { kind := "file", state := TaskState.stopped, log := [] }

/-- The goroutine of the exec monitor (main.go, lines 134 to 150), before or
after the cancellation of the context. -/
def execGoroutine (e : MonitorEnv) (cancelled : Bool) : Task :=
  if !e.startOk then
    { kind := "exec", state := TaskState.startFailed, log := ["Start Exec Monitor Failed"] }
  else if !cancelled then
    { kind := "exec", state := TaskState.waiting, log := ["Exec Monitor Running..."] }
  else if !e.stopReturns then
    { kind := "exec", state := TaskState.inStop,
      log := ["Exec Monitor Running...", "Stopping exec monitor..."] }
  else
    { kind := "exec", state := TaskState.stopped,
      log := ["Exec Monitor Running...", "Stopping exec monitor...",
              "Exec Monitor Stopped Successfully!"] }

/-- The goroutine of the network monitor (main.go, lines 170 to 187), before
or after the cancellation of the context. -/
def networkGoroutine (e : MonitorEnv) (cancelled : Bool) : Task :=
  if !e.startOk then
    { kind := "network", state := TaskState.startFailed,
      log := ["Start Network Monitor Failed"] }
  else if !cancelled then
    { kind := "network", state := TaskState.waiting, log := ["Network Monitor Running..."] }
  else if !e.stopReturns then
    { kind := "network", state := TaskState.inStop,
      log := ["Network Monitor Running...", "Stopping Network Monitor..."] }
  else
    { kind := "network", state := TaskState.stopped,
      log := ["Network Monitor Running...", "Stopping Network Monitor...",
              "Network Monitor Stopped Successfully!"] }

/-- The function `main`. A failing `NewMonitor` exits with status 1; a failing
`Start` is logged inside the goroutine, which returns. After the monitors,
`main` blocks on the signal channel; on a signal it cancels the context,
waits for the goroutines for at most five seconds and returns, which ends the
process with status 0. The goroutines launched so far are kept as functions
of whether the context is cancelled. -/
def main (env : MainEnv) : MainResult :=
  if !env.parseOk then { outcome := Outcome.exit 1, log := [], tasks := [] }
  else if !env.validateOk then { outcome := Outcome.exit 1, log := [], tasks := [] }
  else if !env.configOk then
    { outcome := Outcome.exit 1, log := ["Load Configuration Failed"], tasks := [] }
  else if !env.loggerOk then
    { outcome := Outcome.exit 1, log := ["Program encountered a critical error"], tasks := [] }
  else
    let log0 := ["ltrack Started"]
    if env.file.enabled && !env.file.newOk then
      { outcome := Outcome.exit 1, log := log0 ++ ["Create File Monitor Failed"], tasks := [] }
    else
      let log1 := if env.file.enabled then log0 ++ (registerDirs env.directories NewMonitor).2
        else log0 ++ ["File Monitor Disabled"]
      let gs1 : List (Bool → Task) := if env.file.enabled then [fileGoroutine env.file] else []
      if env.exec.enabled && !env.exec.newOk then
        { outcome := Outcome.exit 1,
          log := log1 ++ ["Initializing Exec Monitor...", "Create Exec Monitor Failed"],
          tasks := gs1.map (fun g => g false) }
      else
        let log2 := if env.exec.enabled then
            log1 ++ ["Initializing Exec Monitor...", "Exec Monitor Created Successfully!"]
          else log1 ++ ["Exec Monitor Disabled"]
        let gs2 := if env.exec.enabled then gs1 ++ [execGoroutine env.exec] else gs1
        if env.network.enabled && !env.network.newOk then
          { outcome := Outcome.exit 1,
            log := log2 ++ ["Initializing network monitor...", "Create Network Monitor Failed"],
            tasks := gs2.map (fun g => g false) }
        else
          let log3 := if env.network.enabled then
              log2 ++ ["Initializing network monitor...", "Network Monitor Created Successfully!"]
            else log2 ++ ["Network Monitor Disabled"]
          let gs3 := if env.network.enabled then gs2 ++ [networkGoroutine env.network] else gs2
          if !env.signal then
            { outcome := Outcome.waitingForSignal, log := log3,
              tasks := gs3.map (fun g => g false) }
          else
            let log4 := log3 ++ ["Received Signal, Preparing Exit"]
            let tasks4 := gs3.map (fun g => g true)
            if tasks4.all Task.returned then
              { outcome := Outcome.exit 0, log := log4 ++ ["Program Exited Normally!"],
                tasks := tasks4 }
            else
              { outcome := Outcome.exit 0, log := log4 ++ ["Program Exit Timed Out!"],
                tasks := tasks4 }

/-- Whether `main` fails before it reaches the signal wait: option parsing,
option validation, configuration loading or logger initialisation fails, or
the constructor of an enabled monitor fails. The results of `Start` play no
part. -/
def startupFails (env : MainEnv) : Bool :=
  !env.parseOk || !env.validateOk || !env.configOk || !env.loggerOk ||
    (env.file.enabled && !env.file.newOk) || (env.exec.enabled && !env.exec.newOk) ||
    (env.network.enabled && !env.network.newOk)

/-- The goroutines of the enabled monitors, in launch order, before or after
the cancellation of the context. -/
def launched (env : MainEnv) (cancelled : Bool) : List Task :=
  (if env.file.enabled then [fileGoroutine env.file cancelled] else []) ++
    ((if env.exec.enabled then [execGoroutine env.exec cancelled] else []) ++
      (if env.network.enabled then [networkGoroutine env.network cancelled] else []))

/-! ## Concrete inputs -/

/-- Every external call of `Start` succeeds. -/
def envAllOk : StartEnv :=
  { loadOk := true, attachOk := fun _ => true, readerOk := true }

/-- The third `link.Kprobe` call fails, every other call succeeds. -/
def envThirdFails : StartEnv :=
  { loadOk := true, attachOk := fun i => i != 2, readerOk := true }

/-- A path of 256 bytes. -/
def path256 : GoString := List.replicate 256 97

/-- Go `binary.LittleEndian.PutUint32`, to build raw samples. -/
def put32 (n : Nat) : List UInt8 :=
  [UInt8.ofNat n, UInt8.ofNat (n / 2 ^ 8), UInt8.ofNat (n / 2 ^ 16), UInt8.ofNat (n / 2 ^ 24)]

/-- A byte field of width `n` holding `b`, padded with null bytes. -/
def padTo (n : Nat) (b : List UInt8) : List UInt8 :=
  (b ++ List.replicate (n - b.length) 0).take n

/-- The raw sample of an event. -/
def rawOf (L : Layout) (e : Event) : List UInt8 :=
  put32 e.EventType ++ put32 e.Pid ++ put32 e.Ppid ++ put32 e.Uid ++
    padTo L.commLen e.Comm ++ padTo L.pcommLen e.Pcomm ++ padTo L.fileNameLen e.FileName

/-- A layout with 16-byte process names and a 256-byte file name. -/
def layoutA : Layout := { commLen := 16, pcommLen := 16, fileNameLen := 256 }

/-- Event type codes with CREATE = 2. -/
def constsA : EventConsts :=
  { EventOpen := 1, EventCreate := 2, EventUnlink := 3, EventMkdir := 4, EventRmdir := 5 }

/-- The loop of a monitor that watches `/tmp/watched`. -/
def cfgA : LoopCfg :=
  { utils := { CleanString := cleanAtNull, CleanProcessName := cleanAtNull }
    consts := constsA
    layout := layoutA
    dirs := [ascii "/tmp/watched"] }

/-- A CREATE event for `/tmp/watched/a.txt`. -/
def rawWatched : List UInt8 :=
  rawOf layoutA { EventType := 2, Pid := 4321, Ppid := 1, Uid := 1000, Comm := ascii "touch",
                  Pcomm := ascii "bash", FileName := ascii "/tmp/watched/a.txt" }

/-- A CREATE event for `/var/log/x.log`. -/
def rawVarLog : List UInt8 :=
  rawOf layoutA { EventType := 2, Pid := 4322, Ppid := 1, Uid := 0, Comm := ascii "logger",
                  Pcomm := ascii "bash", FileName := ascii "/var/log/x.log" }

/-- The record emitted for `rawWatched`. -/
def opWatched : FileOp :=
  { typeName := "CREATE", path := ascii "/tmp/watched/a.txt", filename := ascii "a.txt",
    process := ascii "touch", pid := 4321, parentProcess := ascii "bash", ppid := 1,
    uid := 1000, eventTypeCode := 2 }

/-- A run of `main` in which the file monitor fails to start and the exec
monitor starts; no signal is delivered. -/
def envFileStartFails : MainEnv :=
  { parseOk := true, validateOk := true, configOk := true, loggerOk := true
    file := { enabled := true, newOk := true, startOk := false, stopReturns := true }
    exec := { enabled := true, newOk := true, startOk := true, stopReturns := true }
    network := { enabled := false, newOk := true, startOk := true, stopReturns := true }
    directories := [ascii "/tmp/watched"]
    signal := false }

/-- The outcome of `Start` on a fresh monitor when every external call
succeeds. -/
def started : Ret := Start envAllOk NewMonitor World.empty

/-- The outcome of `Stop` with a done context on the started monitor. -/
def stoppedDone : Ret := Stop { done := true } false started.m started.w

/-- The outcome of `Stop` with a live context on the started monitor. -/
def stoppedLive : Ret := Stop { done := false } false started.m started.w

/-- The world after the successful attachment of the given probes, in order. -/
def attachAll : List String → World → World
  | [], w => w
  | name :: rest, w => attachAll rest (w.attach name).2

/-! # Theorems -/

set_option maxRecDepth 100000

/-! ## The directory filter -/

theorem HasPrefix_iff (s p : GoString) : HasPrefix s p = true ↔ p <+: s := by
  unfold HasPrefix
  rw [List.prefix_iff_eq_take]
  simp only [Bool.and_eq_true, decide_eq_true_eq, beq_iff_eq]
  constructor
  · rintro ⟨_, h⟩
    exact h.symm
  · intro h
    refine ⟨?_, h.symm⟩
    have hl := congrArg List.length h
    simp only [List.length_take] at hl
    omega

theorem isMonitored_iff (dirs : List GoString) (p : GoString) :
    isMonitored dirs p = true ↔ ∃ d ∈ dirs, d <+: p := by
  induction dirs with
  | nil => simp [isMonitored]
  | cons d ds ih =>
    unfold isMonitored
    by_cases h : HasPrefix p d = true
    · simp only [h, if_true, List.mem_cons, true_iff]
      exact ⟨d, Or.inl rfl, (HasPrefix_iff p d).1 h⟩
    · have hn : ¬ d <+: p := fun hp => h ((HasPrefix_iff p d).2 hp)
      simp only [h, if_false, ih, List.mem_cons, Bool.false_eq_true]
      constructor
      · rintro ⟨x, hx, hp⟩
        exact ⟨x, Or.inr hx, hp⟩
      · rintro ⟨x, hx | hx, hp⟩
        · exact absurd (hx ▸ hp) hn
        · exact ⟨x, hx, hp⟩

/-- Claim C2. For every directory list and every record that decodes, with `p` the
sanitized file name: the filter of the consumer loop holds exactly when some
registered directory is a byte prefix of `p`; when it holds the loop emits
the record of the event and goes on, otherwise it emits nothing for it and
goes on. -/
theorem filter_keeps_iff_under_some_dir (c : LoopCfg) (raw : List UInt8) (event : Event)
    (rest : List Step) (st : LoopState)
    (hdec : binaryRead c.layout raw = Except.ok event) :
    (isMonitored c.dirs (c.utils.CleanString event.FileName) = true ↔
        ∃ d ∈ c.dirs, d <+: c.utils.CleanString event.FileName) ∧
    ((∃ d ∈ c.dirs, d <+: c.utils.CleanString event.FileName) →
        readLoop c (Step.sample raw :: rest) st =
          readLoop c rest { st with reads := st.reads + 1,
                                    emitted := st.emitted ++ [fileOpOf c event] }) ∧
    ((¬ ∃ d ∈ c.dirs, d <+: c.utils.CleanString event.FileName) →
        readLoop c (Step.sample raw :: rest) st =
          readLoop c rest { st with reads := st.reads + 1, ignored := st.ignored + 1 }) := by
  refine ⟨isMonitored_iff _ _, ?_, ?_⟩
  · intro h
    have hm := (isMonitored_iff _ _).2 h
    simp only [readLoop, hdec, hm, if_true]
  · intro h
    have hm : isMonitored c.dirs (c.utils.CleanString event.FileName) = false := by
      cases hb : isMonitored c.dirs (c.utils.CleanString event.FileName) with
      | false => rfl
      | true => exact absurd ((isMonitored_iff _ _).1 hb) h
    simp [readLoop, hdec, hm]

/-- Scenario A: with the directory `/tmp/watched`, the CREATE event for
`/tmp/watched/a.txt` is emitted and the one for `/var/log/x.log` is dropped. -/
theorem filter_keeps_iff_under_some_dir_witness :
    binaryRead cfgA.layout rawWatched =
        Except.ok (parseEvent layoutA (rawWatched.take layoutA.size)) ∧
    (isMonitored cfgA.dirs (ascii "/tmp/watched/a.txt") = true ↔
        ∃ d ∈ cfgA.dirs, d <+: ascii "/tmp/watched/a.txt") ∧
    handleEvents cfgA [Step.sample rawWatched] =
      (Status.alive, { sends := 0, reads := 1, parseErrors := 0, ignored := 0,
                       emitted := [opWatched] }) ∧
    handleEvents cfgA [Step.sample rawVarLog] =
      (Status.alive, { sends := 0, reads := 1, parseErrors := 0, ignored := 1,
                       emitted := [] }) :=
  ⟨by rfl,
   (filter_keeps_iff_under_some_dir cfgA rawWatched
      (parseEvent layoutA (rawWatched.take layoutA.size)) [] LoopState.init (by rfl)).1,
   by decide, by decide⟩

/-! ## Registration of directories -/

/-- Claim C7, as the code has it. `AddMonitoredDir` rejects a path exactly when it
has 256 bytes or more, and then leaves the monitor unchanged; a path of at
most 255 bytes is accepted and appended as the last directory, the earlier
directories and every other field unchanged. -/
theorem AddMonitoredDir_rejects_iff_256_or_more (m : Monitor) (path : GoString) :
    ((AddMonitoredDir m path).1 ≠ none ↔ 256 ≤ path.length) ∧
    (256 ≤ path.length →
        AddMonitoredDir m path = (some (Err.pathTooLong path), m)) ∧
    (path.length ≤ 255 →
        AddMonitoredDir m path = (none, { m with dirs := m.dirs ++ [path] })) := by
  unfold AddMonitoredDir
  by_cases h : path.length ≥ 256
  · rw [if_pos h]
    exact ⟨⟨fun _ => h, fun _ => by simp⟩, fun _ => rfl, fun h2 => by omega⟩
  · rw [if_neg h]
    exact ⟨⟨fun h2 => absurd rfl h2, fun h2 => absurd h2 h⟩, fun h2 => absurd h2 h,
      fun _ => rfl⟩

/-- A path of 5 bytes is appended after the directories already there. -/
theorem AddMonitoredDir_rejects_iff_256_or_more_witness :
    AddMonitoredDir { NewMonitor with dirs := [ascii "/etc"] } (ascii "/home") =
      (none, { NewMonitor with dirs := [ascii "/etc", ascii "/home"] }) :=
  (AddMonitoredDir_rejects_iff_256_or_more { NewMonitor with dirs := [ascii "/etc"] }
    (ascii "/home")).2.2 (by decide)

/-- Claim C7 as stated fails: a path of exactly 256 bytes is not longer than 256
bytes, yet `AddMonitoredDir` rejects it and leaves the directory list as it
was. -/
theorem AddMonitoredDir_rejects_256_bytes :
    path256.length = 256 ∧
    ¬ ((AddMonitoredDir NewMonitor path256).1 ≠ none ↔ 256 < path256.length) ∧
    AddMonitoredDir NewMonitor path256 = (some (Err.pathTooLong path256), NewMonitor) := by
  have hl : path256.length = 256 := List.length_replicate 256 97
  have hr : AddMonitoredDir NewMonitor path256 =
      (some (Err.pathTooLong path256), NewMonitor) := by
    unfold AddMonitoredDir
    rw [if_pos (by omega)]
  refine ⟨hl, ?_, hr⟩
  rw [hr, hl]
  simp

/-! ## Start on a running monitor -/

/-- Claim C8. On a running monitor `Start` returns the "already running" error and
does nothing else: the monitor is unchanged and so is the world, in which no
object was loaded, no probe attached, no reader and no consumer goroutine
created. -/
theorem Start_running_is_noop (probes : List String) (env : StartEnv) (m : Monitor) (w : World)
    (hrun : m.running = true) :
    StartWith probes env m w = { err := some Err.alreadyRunning, m := m, w := w } ∧
    Start env m w = { err := some Err.alreadyRunning, m := m, w := w } := by
  simp [Start, StartWith, hrun]

/-- A second `Start` on the monitor that a first `Start` left running. -/
theorem Start_running_is_noop_witness :
    (Start envAllOk NewMonitor World.empty).m.running = true ∧
    Start envAllOk (Start envAllOk NewMonitor World.empty).m
        (Start envAllOk NewMonitor World.empty).w =
      { err := some Err.alreadyRunning, m := (Start envAllOk NewMonitor World.empty).m,
        w := (Start envAllOk NewMonitor World.empty).w } :=
  ⟨by decide,
   (Start_running_is_noop fileProbes envAllOk (Start envAllOk NewMonitor World.empty).m
      (Start envAllOk NewMonitor World.empty).w (by decide)).2⟩

/-! ## Decoding in the consumer loop -/

/-- Claim C9, as the code has it. A raw sample shorter than the record width fails
to decode, nothing is filtered or emitted for it and the loop goes on with
the next read; a sample of the record width or longer decodes, from its first
`size` bytes, the bytes after them being ignored. -/
theorem decode_fails_iff_sample_too_short (c : LoopCfg) (raw : List UInt8) (rest : List Step)
    (st : LoopState) :
    (raw.length < c.layout.size →
        (∃ e, binaryRead c.layout raw = Except.error e) ∧
        readLoop c (Step.sample raw :: rest) st =
          readLoop c rest { st with reads := st.reads + 1,
                                    parseErrors := st.parseErrors + 1 }) ∧
    (c.layout.size ≤ raw.length →
        binaryRead c.layout raw = Except.ok (parseEvent c.layout (raw.take c.layout.size)) ∧
        binaryRead c.layout raw = binaryRead c.layout (raw.take c.layout.size)) := by
  constructor
  · intro h
    have hd : ∃ e, binaryRead c.layout raw = Except.error e := by
      unfold binaryRead
      by_cases h0 : raw.length = 0
      · exact ⟨DecodeError.EOF, by rw [if_pos h, if_pos h0]⟩
      · exact ⟨DecodeError.ErrUnexpectedEOF, by rw [if_pos h, if_neg h0]⟩
    obtain ⟨e, he⟩ := hd
    exact ⟨⟨e, he⟩, by simp [readLoop, he]⟩
  · intro h
    have h1 : ¬ raw.length < c.layout.size := by omega
    have h2 : ¬ (raw.take c.layout.size).length < c.layout.size := by
      simp only [List.length_take]; omega
    have h3 : (raw.take c.layout.size).take c.layout.size = raw.take c.layout.size := by
      simp [List.take_take]
    constructor
    · simp [binaryRead, h1]
    · unfold binaryRead
      rw [if_neg h1, if_neg h2, h3]

/-- A sample one byte short of the width, then a full one: the first is a
parse error, the second is emitted. -/
theorem decode_fails_iff_sample_too_short_witness :
    (rawWatched.take 303).length < cfgA.layout.size ∧
    readLoop cfgA [Step.sample (rawWatched.take 303), Step.sample rawWatched] LoopState.init =
      readLoop cfgA [Step.sample rawWatched]
        { LoopState.init with reads := 1, parseErrors := 1 } ∧
    handleEvents cfgA [Step.sample (rawWatched.take 303), Step.sample rawWatched] =
      (Status.alive, { sends := 0, reads := 2, parseErrors := 1, ignored := 0,
                       emitted := [opWatched] }) :=
  ⟨by decide,
   ((decode_fails_iff_sample_too_short cfgA (rawWatched.take 303) [Step.sample rawWatched]
      LoopState.init).1 (by decide)).2,
   by decide⟩

/-- Claim C9 as stated fails: a sample one byte longer than the record width
decodes without error and its event is emitted. -/
theorem longer_sample_decodes :
    (rawWatched ++ [7]).length = cfgA.layout.size + 1 ∧
    binaryRead cfgA.layout (rawWatched ++ [7]) = binaryRead cfgA.layout rawWatched ∧
    (∃ event, binaryRead cfgA.layout (rawWatched ++ [7]) = Except.ok event) ∧
    handleEvents cfgA [Step.sample (rawWatched ++ [7])] =
      (Status.alive, { sends := 0, reads := 1, parseErrors := 0, ignored := 0,
                       emitted := [opWatched] }) :=
  ⟨by decide, by rfl, ⟨_, by rfl⟩, by decide⟩

/-! ## Read errors in the consumer loop -/

theorem readLoop_readErr_blocks (c : LoopCfg) (rest : List Step) (st : LoopState)
    (h : errChanCap + errChanReceives ≤ st.sends) :
    readLoop c (Step.readErr :: rest) st =
      (Status.blockedOnSend, { st with reads := st.reads + 1 }) := by
  have h1 : ¬ st.sends < errChanCap + errChanReceives := by omega
  simp [readLoop, sendErrChan, h1]

/-- Claim C10 fails on the code. After two read errors other than the closed error
the third one leaves the loop goroutine blocked for ever in its send on
`errChan`, whatever would be read next: no further read is issued and no
later record is emitted. Without the read errors the same record is
emitted. -/
theorem third_read_error_blocks_loop (c : LoopCfg) (rest : List Step) :
    handleEvents c (Step.readErr :: Step.readErr :: Step.readErr :: rest) =
      (Status.blockedOnSend, { sends := 2, reads := 3, parseErrors := 0, ignored := 0,
                               emitted := [] }) ∧
    handleEvents cfgA [Step.readErr, Step.readErr, Step.readErr, Step.sample rawWatched] =
      (Status.blockedOnSend, { sends := 2, reads := 3, parseErrors := 0, ignored := 0,
                               emitted := [] }) ∧
    handleEvents cfgA [Step.sample rawWatched] =
      (Status.alive, { sends := 0, reads := 1, parseErrors := 0, ignored := 0,
                       emitted := [opWatched] }) := by
  refine ⟨?_, by decide, by decide⟩
  simp [handleEvents, readLoop, sendErrChan, LoopState.init, errChanCap, errChanReceives]

/-! ## Stop -/

/-- On an idle monitor `Stop` returns nil and does nothing. -/
theorem Stop_idle_is_noop (ctx : Context) (expired : Bool) (m : Monitor) (w : World)
    (h : m.running = false) : Stop ctx expired m w = { err := none, m := m, w := w } := by
  simp [Stop, h]

/-- With a context that is not done and a timeout that has not passed, `Stop`
on a running monitor closes the reader, every link and the object set, and
leaves the monitor idle with `links` and `objs` cleared. -/
theorem Stop_live_context_releases (m : Monitor) (w : World) (h : m.running = true) :
    (Stop { done := false } false m w).err = none ∧
    (Stop { done := false } false m w).m =
      { m with links := [], objs := none, running := false } := by
  simp [Stop, h, WithTimeout]

/-- Claim C1 fails on the code. For every running monitor, `Stop` with a context
that is already done returns nil having closed the reader only: the monitor
is returned as it was, still running, with its links and its object set, and
in the world no link and no object set has been closed. -/
theorem Stop_done_context_releases_only_reader (expired : Bool) (m : Monitor) (w : World)
    (hrun : m.running = true) :
    (Stop { done := true } expired m w).err = none ∧
    (Stop { done := true } expired m w).m = m ∧
    (Stop { done := true } expired m w).m.running = true ∧
    (Stop { done := true } expired m w).w.openLinks = w.openLinks ∧
    (Stop { done := true } expired m w).w.openObjs = w.openObjs := by
  cases hr : m.reader <;> simp [Stop, hrun, WithTimeout, hr, World.closeReader]

/-- The goroutine that `main` runs for the file monitor, every call of
`Start` succeeding: after its `Stop` the four links and the object set are
still open and the monitor is still marked running. -/
theorem Stop_done_context_releases_only_reader_witness :
    started.m.running = true ∧
    (Stop { done := true } false started.m started.w).m = started.m ∧
    fileTask envAllOk false NewMonitor World.empty =
      { err := none
        m := { links := [1, 2, 3, 4], objs := some 0, reader := some 5, running := true,
               dirs := [] }
        w := { next := 6, openLinks := [1, 2, 3, 4], openObjs := [0], openReaders := [],
               trace := [Op.loadBpfObjects 0, Op.kprobe "do_sys_openat2" 1,
                         Op.kprobe "do_unlinkat" 2, Op.kprobe "do_mkdirat" 3,
                         Op.kprobe "do_renameat2" 4, Op.newReader 5, Op.goHandleEvents,
                         Op.closeReader 5] } } :=
  ⟨by decide,
   (Stop_done_context_releases_only_reader false started.m started.w (by decide)).2.1,
   by decide⟩

/-- Claim C6 fails on the code. After a first `Stop` whose context is done, the
monitor is still marked running, so a second `Stop` closes the reader a
second time; when the context of the second call is live it also closes the
links and the object set and changes the fields of the monitor. After a first
`Stop` with a live context the second call does nothing. -/
theorem second_Stop_closes_reader_again :
    stoppedDone.m.running = true ∧
    stoppedDone.w.trace = started.w.trace ++ [Op.closeReader 5] ∧
    (Stop { done := true } false stoppedDone.m stoppedDone.w).w.trace =
      started.w.trace ++ [Op.closeReader 5, Op.closeReader 5] ∧
    (Stop { done := false } false stoppedDone.m stoppedDone.w).w.trace =
      started.w.trace ++ [Op.closeReader 5, Op.closeReader 5, Op.closeLink 1, Op.closeLink 2,
                          Op.closeLink 3, Op.closeLink 4, Op.closeObjs 0] ∧
    (Stop { done := false } false stoppedDone.m stoppedDone.w).m ≠ stoppedDone.m ∧
    Stop { done := true } false stoppedLive.m stoppedLive.w =
      { err := none, m := stoppedLive.m, w := stoppedLive.w } := by
  decide

/-! ## Start that fails -/

/-- When `loadBpfObjects` fails, `Start` returns an error and the monitor is
as before. -/
theorem Start_load_failure_keeps_monitor (probes : List String) (env : StartEnv) (m : Monitor)
    (w : World) (hrun : m.running = false) (hload : env.loadOk = false) :
    (StartWith probes env m w).err = some Err.loadingObjects ∧
    (StartWith probes env m w).m = m := by
  simp [StartWith, hrun, hload]

/-- Claim C4 fails on the code. When the third attachment fails on a fresh monitor,
`Start` returns the error with `links` holding the two links it closed and
`objs` pointing to the object set it closed, not with the fields the monitor
had before; when the first attachment fails, `objs` is still set. `Stop`
clears both fields after closing. -/
theorem failed_Start_keeps_closed_handles :
    (Start envThirdFails NewMonitor World.empty).err =
      some (Err.attachingKprobe "do_mkdirat") ∧
    (Start envThirdFails NewMonitor World.empty).m =
      { links := [1, 2], objs := some 0, reader := none, running := false, dirs := [] } ∧
    (Start envThirdFails NewMonitor World.empty).m ≠ NewMonitor ∧
    (Start envThirdFails NewMonitor World.empty).w.openLinks = [] ∧
    (Start envThirdFails NewMonitor World.empty).w.openObjs = [] ∧
    (Start { loadOk := true, attachOk := fun _ => false, readerOk := true } NewMonitor
        World.empty).m =
      { links := [], objs := some 0, reader := none, running := false, dirs := [] } ∧
    (Start { loadOk := true, attachOk := fun _ => true, readerOk := false } NewMonitor
        World.empty).m =
      { links := [1, 2, 3, 4], objs := some 0, reader := none, running := false, dirs := [] } ∧
    stoppedLive.m = { links := [], objs := none, reader := some 5, running := false,
                      dirs := [] } := by
  decide

/-! ## The orchestrator -/

/-- Claim C5 as stated fails: the file monitor is enabled and its `Start` fails,
yet `main` does not exit; the goroutine of the file monitor has logged the
failure and returned, the exec monitor runs, and `main` is blocked waiting for
a signal. When the signal comes the process ends with status 0. -/
theorem main_does_not_exit_on_failed_Start :
    envFileStartFails.file.enabled = true ∧ envFileStartFails.file.startOk = false ∧
    main envFileStartFails =
      { outcome := Outcome.waitingForSignal
        log := ["ltrack Started", "Initializing Exec Monitor...",
                "Exec Monitor Created Successfully!", "Network Monitor Disabled"]
        tasks := [{ kind := "file", state := TaskState.startFailed,
                    log := ["Start File Monitor Failed"] },
                  { kind := "exec", state := TaskState.waiting,
                    log := ["Exec Monitor Running..."] }] } ∧
    (main { envFileStartFails with signal := true }).outcome = Outcome.exit 0 ∧
    ¬ ∃ code, code ≠ 0 ∧ (main envFileStartFails).outcome = Outcome.exit code := by
  refine ⟨by decide, by decide, by decide, by decide, ?_⟩
  rintro ⟨code, _, h⟩
  have h2 : (main envFileStartFails).outcome = Outcome.waitingForSignal := by decide
  rw [h2] at h
  exact Outcome.noConfusion h

/-! ## Rollback in Start -/

theorem closeLinks_eq (ls : List Nat) (w : World) :
    closeLinks ls w =
      { w with openLinks := w.openLinks.filter (fun x => !ls.contains x),
               trace := w.trace ++ ls.map Op.closeLink } := by
  induction ls generalizing w with
  | nil => simp [closeLinks]
  | cons l ls ih =>
    rw [closeLinks, ih]
    simp only [World.closeLink, List.filter_filter, List.map_cons, List.append_assoc,
      List.singleton_append, World.mk.injEq, true_and, and_true]
    apply List.filter_congr
    intro x _
    simp only [List.contains_cons, Bool.not_or, bne, Bool.and_comm]

theorem attachAll_fields (names : List String) (w : World) :
    (attachAll names w).next = w.next + names.length ∧
    (attachAll names w).openLinks = w.openLinks ++ List.range' w.next names.length ∧
    (attachAll names w).openObjs = w.openObjs ∧
    (attachAll names w).openReaders = w.openReaders := by
  induction names generalizing w with
  | nil => simp [attachAll]
  | cons n ns ih =>
    obtain ⟨h1, h2, h3, h4⟩ := ih (w.attach n).2
    rw [attachAll]
    refine ⟨?_, ?_, ?_, ?_⟩
    · rw [h1]; simp only [World.attach, List.length_cons]; omega
    · rw [h2]; simp [World.attach, List.range'_succ]
    · rw [h3]; simp [World.attach]
    · rw [h4]; simp [World.attach]

theorem attachLoop_ok_steps (env : StartEnv) (n : Nat) :
    ∀ (probes : List String) (i : Nat) (m : Monitor) (w : World),
      n ≤ probes.length → (∀ j, j < n → env.attachOk (i + j) = true) →
      attachLoop env probes i m w =
        attachLoop env (probes.drop n) (i + n)
          { m with links := m.links ++ List.range' w.next n } (attachAll (probes.take n) w) := by
  induction n with
  | zero =>
    intro probes i m w _ _
    simp [attachAll]
  | succ k ih =>
    intro probes i m w hlen hok
    cases probes with
    | nil => simp at hlen
    | cons name rest =>
      have h0 : env.attachOk i = true := by simpa using hok 0 (by omega)
      have hk : ∀ j, j < k → env.attachOk (i + 1 + j) = true := by
        intro j hj
        have := hok (j + 1) (by omega)
        rwa [show i + (j + 1) = i + 1 + j by omega] at this
      have hlen2 : k ≤ rest.length := by simpa using hlen
      rw [attachLoop, if_pos h0, ih rest (i + 1) _ _ hlen2 hk]
      simp only [List.drop_succ_cons, List.take_succ_cons, attachAll, World.attach,
        List.range'_succ, List.append_assoc, List.singleton_append]
      rw [show i + 1 + k = i + (k + 1) by omega]

theorem unwound_world (w : World) (hwf : w.WF) (names : List String) (x : Op) (m : Monitor)
    (hl : m.links = List.range' (w.next + 1) names.length) (ho : m.objs = some w.next) :
    (closeObjsOf m.objs (closeLinks m.links ((attachAll names w.load.2).note x))).openLinks =
        w.openLinks ∧
    (closeObjsOf m.objs (closeLinks m.links ((attachAll names w.load.2).note x))).openObjs =
        w.openObjs ∧
    (closeObjsOf m.objs (closeLinks m.links ((attachAll names w.load.2).note x))).openReaders =
        w.openReaders ∧
    (∀ l ∈ m.links,
      Op.closeLink l ∈
        (closeObjsOf m.objs (closeLinks m.links ((attachAll names w.load.2).note x))).trace) ∧
    Op.closeObjs w.next ∈
      (closeObjsOf m.objs (closeLinks m.links ((attachAll names w.load.2).note x))).trace := by
  obtain ⟨hwl, hwo, _⟩ := hwf
  obtain ⟨_, h2, h3, h4⟩ := attachAll_fields names w.load.2
  rw [ho, closeLinks_eq]
  simp only [closeObjsOf, World.closeObjs, World.note, h2, h3, h4]
  refine ⟨?_, ?_, ?_, ?_, ?_⟩
  · simp only [World.load, hl]
    rw [List.filter_append]
    have e1 : List.filter (fun x => !(List.range' (w.next + 1) names.length).contains x)
        w.openLinks = w.openLinks := by
      rw [List.filter_eq_self]
      intro a ha
      have := hwl a ha
      simp only [Bool.not_eq_true', List.contains_eq_any_beq, List.any_eq_false, beq_iff_eq,
        List.mem_range'_1]
      intro y hy
      omega
    have e2 : List.filter (fun x => !(List.range' (w.next + 1) names.length).contains x)
        (List.range' (w.next + 1) names.length) = [] := by
      rw [List.filter_eq_nil_iff]
      intro a ha
      simpa using ha
    rw [e1, e2, List.append_nil]
  · simp only [World.load]
    rw [List.filter_append]
    have e1 : List.filter (fun x => x != w.next) w.openObjs = w.openObjs := by
      rw [List.filter_eq_self]
      intro a ha
      have := hwo a ha
      simp only [bne_iff_ne, ne_eq]
      omega
    rw [e1]
    simp
  · simp [World.load]
  · intro l hlm
    simp only [List.mem_append, List.mem_map, List.mem_singleton]
    exact Or.inl (Or.inr ⟨l, hlm, rfl⟩)
  · simp

theorem StartWith_failure_form (probes : List String) (env : StartEnv) (m : Monitor) (w : World)
    (N : Nat) (hrun : m.running = false) (hlinks : m.links = [])
    (hload : env.loadOk = true) (hN : 1 ≤ N)
    (hok : ∀ i, i < N - 1 → env.attachOk i = true)
    (hfail : (N ≤ probes.length ∧ env.attachOk (N - 1) = false) ∨
             (N = probes.length + 1 ∧ env.readerOk = false)) :
    ∃ x, StartWith probes env m w =
      { err := if N ≤ probes.length then some (Err.attachingKprobe (probes.getD (N - 1) ""))
               else some Err.creatingReader
        m := { m with objs := some w.next, links := List.range' (w.next + 1) (N - 1) }
        w := closeObjsOf (some w.next)
              (closeLinks (List.range' (w.next + 1) (N - 1))
                ((attachAll (probes.take (N - 1)) w.load.2).note x)) } := by
  obtain ⟨links, objs, reader, running, dirs⟩ := m
  simp only at hrun hlinks
  subst hrun hlinks
  have hlen : N - 1 ≤ probes.length := by
    rcases hfail with ⟨h, _⟩ | ⟨h, _⟩ <;> omega
  have hok0 : ∀ j, j < N - 1 → env.attachOk (0 + j) = true := by
    intro j hj
    rw [Nat.zero_add]
    exact hok j hj
  have hsteps := attachLoop_ok_steps env (N - 1) probes 0
    { links := [], objs := some w.load.1, reader := reader, running := false, dirs := dirs }
    w.load.2 hlen hok0
  have hnext : w.load.2.next = w.next + 1 := rfl
  have hfst : w.load.1 = w.next := rfl
  simp only [List.nil_append, Nat.zero_add, hnext, hfst] at hsteps
  unfold StartWith
  simp only [hload, Bool.false_eq_true, if_false, Bool.not_true, hfst]
  rw [hsteps]
  rcases hfail with ⟨hNK, hbad⟩ | ⟨hNK, hbad⟩
  · have hlt : N - 1 < probes.length := by omega
    refine ⟨Op.kprobeFailed (probes.getD (N - 1) ""), ?_⟩
    rw [List.drop_eq_getElem_cons hlt, attachLoop]
    have hg : (probes[N - 1]?).getD "" = probes[N - 1] := by
      simp [List.getElem?_eq_getElem hlt]
    simp [hbad, hNK, hg]
  · have hdrop : probes.drop (N - 1) = [] := by
      apply List.drop_eq_nil_of_le
      omega
    have hnot : ¬ N ≤ probes.length := by omega
    refine ⟨Op.newReaderFailed, ?_⟩
    rw [hdrop]
    simp [attachLoop, hbad, hnot]

/-- Claim C3. On an idle monitor with no links, in a world whose open handles are
all known, when the object set loads, the first `N - 1` attachments succeed
and then either the `N`-th attachment fails (`N` at most the number of
probes) or, every probe being attached, the creation of the ring reader
fails: `Start` returns an error, each of the `N - 1` links it attached has
been closed, the links open in the world are those open before the call, and
the object set it loaded has been closed. -/
theorem Start_failure_closes_links_and_objs (probes : List String) (env : StartEnv)
    (m : Monitor) (w : World) (N : Nat)
    (hrun : m.running = false) (hlinks : m.links = []) (hwf : w.WF)
    (hload : env.loadOk = true) (hN : 1 ≤ N)
    (hok : ∀ i, i < N - 1 → env.attachOk i = true)
    (hfail : (N ≤ probes.length ∧ env.attachOk (N - 1) = false) ∨
             (N = probes.length + 1 ∧ env.readerOk = false)) :
    (StartWith probes env m w).err ≠ none ∧
    (StartWith probes env m w).err =
      (if N ≤ probes.length then some (Err.attachingKprobe (probes.getD (N - 1) ""))
       else some Err.creatingReader) ∧
    (StartWith probes env m w).m.links.length = N - 1 ∧
    (∀ l ∈ (StartWith probes env m w).m.links,
      l ∉ (StartWith probes env m w).w.openLinks ∧
      Op.closeLink l ∈ (StartWith probes env m w).w.trace) ∧
    (StartWith probes env m w).w.openLinks = w.openLinks ∧
    (∃ o, (StartWith probes env m w).m.objs = some o ∧
      o ∉ (StartWith probes env m w).w.openObjs ∧
      Op.closeObjs o ∈ (StartWith probes env m w).w.trace) ∧
    (StartWith probes env m w).w.openObjs = w.openObjs ∧
    (StartWith probes env m w).w.openReaders = w.openReaders := by
  obtain ⟨x, hx⟩ := StartWith_failure_form probes env m w N hrun hlinks hload hN hok hfail
  have hlen : N - 1 ≤ probes.length := by
    rcases hfail with ⟨h, _⟩ | ⟨h, _⟩ <;> omega
  have htake : (probes.take (N - 1)).length = N - 1 := by
    rw [List.length_take]; omega
  have hu := unwound_world w hwf (probes.take (N - 1)) x
    { m with objs := some w.next, links := List.range' (w.next + 1) (N - 1) }
    (by rw [htake]) rfl
  simp only at hu
  obtain ⟨u1, u2, u3, u4, u5⟩ := hu
  rw [hx]
  refine ⟨?_, rfl, ?_, ?_, u1, ⟨w.next, rfl, ?_, u5⟩, u2, u3⟩
  · show (if N ≤ probes.length then some (Err.attachingKprobe (probes.getD (N - 1) ""))
      else some Err.creatingReader) ≠ none
    split <;> simp
  · show (List.range' (w.next + 1) (N - 1)).length = N - 1
    simp
  · intro l hl
    refine ⟨?_, u4 l hl⟩
    show l ∉ (closeObjsOf (some w.next) (closeLinks (List.range' (w.next + 1) (N - 1))
      ((attachAll (probes.take (N - 1)) w.load.2).note x))).openLinks
    rw [u1]
    intro hmem
    have h1 := hwf.1 l hmem
    have h2 := List.mem_range'_1.1 hl
    omega
  · show w.next ∉ (closeObjsOf (some w.next) (closeLinks (List.range' (w.next + 1) (N - 1))
      ((attachAll (probes.take (N - 1)) w.load.2).note x))).openObjs
    rw [u2]
    intro hmem
    have h1 := hwf.2.1 _ hmem
    omega

/-- Scenario B: four probes, the third attachment fails. -/
theorem Start_failure_closes_links_and_objs_witness :
    (Start envThirdFails NewMonitor World.empty).err ≠ none ∧
    (Start envThirdFails NewMonitor World.empty).m.links.length = 2 ∧
    (Start envThirdFails NewMonitor World.empty).w.openLinks = [] ∧
    (Start envThirdFails NewMonitor World.empty).w.openObjs = [] ∧
    (Start envThirdFails NewMonitor World.empty).w.trace =
      [Op.loadBpfObjects 0, Op.kprobe "do_sys_openat2" 1, Op.kprobe "do_unlinkat" 2,
       Op.kprobeFailed "do_mkdirat", Op.closeLink 1, Op.closeLink 2, Op.closeObjs 0] :=
  have h := Start_failure_closes_links_and_objs fileProbes envThirdFails NewMonitor
    World.empty 3 rfl rfl (by simp [World.WF, World.empty]) rfl (by decide)
    (by intro i hi; simp [envThirdFails]; omega) (Or.inl ⟨by decide, rfl⟩)
  ⟨h.1, h.2.2.1, h.2.2.2.2.1, h.2.2.2.2.2.2.1, by decide⟩

/-- Claim C5, as the code has it. A failing `Start` never ends the process:
`main` exits with status 1 exactly when option parsing, option validation,
configuration loading, logger initialisation or the constructor of an enabled
monitor fails, whatever the results of `Start`. Otherwise one goroutine runs
per enabled monitor; a goroutine whose `Start` fails logs the failure and
returns without calling `Stop`, the others wait for the cancellation; `main`
blocks waiting for a signal, and once a signal is delivered it cancels the
context, the waiting goroutines call `Stop` (logging around it), and the
process ends with status 0. -/
theorem main_logs_failed_Start_and_keeps_running (env : MainEnv) :
    (main env).outcome =
      (if startupFails env then Outcome.exit 1
       else if env.signal then Outcome.exit 0 else Outcome.waitingForSignal) ∧
    (startupFails env = false → (main env).tasks = launched env env.signal) ∧
    (∀ (e : MonitorEnv) (cancelled : Bool), e.startOk = false →
      fileGoroutine e cancelled =
        { kind := "file", state := TaskState.startFailed,
          log := ["Start File Monitor Failed"] } ∧
      execGoroutine e cancelled =
        { kind := "exec", state := TaskState.startFailed,
          log := ["Start Exec Monitor Failed"] } ∧
      networkGoroutine e cancelled =
        { kind := "network", state := TaskState.startFailed,
          log := ["Start Network Monitor Failed"] }) ∧
    (∀ e : MonitorEnv, e.startOk = true →
      fileGoroutine e false = { kind := "file", state := TaskState.waiting, log := [] } ∧
      execGoroutine e false =
        { kind := "exec", state := TaskState.waiting, log := ["Exec Monitor Running..."] } ∧
      networkGoroutine e false =
        { kind := "network", state := TaskState.waiting,
          log := ["Network Monitor Running..."] }) ∧
    (∀ e : MonitorEnv, e.startOk = true → e.stopReturns = true →
      fileGoroutine e true = { kind := "file", state := TaskState.stopped, log := [] } ∧
      execGoroutine e true =
        { kind := "exec", state := TaskState.stopped,
          log := ["Exec Monitor Running...", "Stopping exec monitor...",
                  "Exec Monitor Stopped Successfully!"] } ∧
      networkGoroutine e true =
        { kind := "network", state := TaskState.stopped,
          log := ["Network Monitor Running...", "Stopping Network Monitor...",
                  "Network Monitor Stopped Successfully!"] }) ∧
    (∀ e : MonitorEnv, e.startOk = true → e.stopReturns = false →
      fileGoroutine e true = { kind := "file", state := TaskState.inStop, log := [] } ∧
      execGoroutine e true =
        { kind := "exec", state := TaskState.inStop,
          log := ["Exec Monitor Running...", "Stopping exec monitor..."] } ∧
      networkGoroutine e true =
        { kind := "network", state := TaskState.inStop,
          log := ["Network Monitor Running...", "Stopping Network Monitor..."] }) := by
  refine ⟨?_, ?_, ?_, ?_, ?_, ?_⟩
  · unfold main startupFails
    by_cases h0 : env.parseOk = true <;> by_cases h1 : env.validateOk = true <;>
      by_cases h2 : env.configOk = true <;> by_cases h3 : env.loggerOk = true <;>
      simp only [h0, h1, h2, h3, Bool.not_true, Bool.false_eq_true, if_false, if_true,
        Bool.not_false, Bool.or_true, Bool.true_or, Bool.or_false, Bool.false_or,
        Bool.not_eq_true] <;>
      try rfl
    by_cases f1 : env.file.enabled = true <;> by_cases f2 : env.file.newOk = true <;>
      by_cases e1 : env.exec.enabled = true <;> by_cases e2 : env.exec.newOk = true <;>
      by_cases n1 : env.network.enabled = true <;> by_cases n2 : env.network.newOk = true <;>
      by_cases sg : env.signal = true <;>
      simp [f1, f2, e1, e2, n1, n2, sg] <;>
      split <;> rfl
  · intro hs
    unfold startupFails at hs
    simp only [Bool.or_eq_false_iff, Bool.not_eq_false', Bool.and_eq_false_imp,
      Bool.not_eq_eq_eq_not, Bool.not_true] at hs
    obtain ⟨⟨⟨⟨⟨⟨h0, h1⟩, h2⟩, h3⟩, hf⟩, he⟩, hn⟩ := hs
    unfold main launched
    by_cases f1 : env.file.enabled = true <;> by_cases e1 : env.exec.enabled = true <;>
      by_cases n1 : env.network.enabled = true <;> by_cases sg : env.signal = true <;>
      simp [h0, h1, h2, h3, f1, e1, n1, sg, hf, he, hn] <;>
      split <;> rfl
  · intro e c h
    simp [fileGoroutine, execGoroutine, networkGoroutine, h]
  · intro e h
    simp [fileGoroutine, execGoroutine, networkGoroutine, h]
  · intro e h h2
    simp [fileGoroutine, execGoroutine, networkGoroutine, h, h2]
  · intro e h h2
    simp [fileGoroutine, execGoroutine, networkGoroutine, h, h2]

/-- The run in which the file monitor fails to start and the exec monitor
starts: `main` waits for the signal with the exec monitor running; with a
signal it ends with status 0; with a failing exec constructor instead it
exits with status 1. -/
theorem main_logs_failed_Start_and_keeps_running_witness :
    (main envFileStartFails).outcome = Outcome.waitingForSignal ∧
    (main envFileStartFails).tasks =
      [{ kind := "file", state := TaskState.startFailed, log := ["Start File Monitor Failed"] },
       { kind := "exec", state := TaskState.waiting, log := ["Exec Monitor Running..."] }] ∧
    main { envFileStartFails with signal := true } =
      { outcome := Outcome.exit 0
        log := ["ltrack Started", "Initializing Exec Monitor...",
                "Exec Monitor Created Successfully!", "Network Monitor Disabled",
                "Received Signal, Preparing Exit", "Program Exited Normally!"]
        tasks := [{ kind := "file", state := TaskState.startFailed,
                    log := ["Start File Monitor Failed"] },
                  { kind := "exec", state := TaskState.stopped,
                    log := ["Exec Monitor Running...", "Stopping exec monitor...",
                            "Exec Monitor Stopped Successfully!"] }] } ∧
    (main { envFileStartFails with
            exec := { enabled := true, newOk := false, startOk := true,
                      stopReturns := true } }).outcome = Outcome.exit 1 :=
  ⟨(main_logs_failed_Start_and_keeps_running envFileStartFails).1,
   (main_logs_failed_Start_and_keeps_running envFileStartFails).2.1 rfl,
   by decide,
   (main_logs_failed_Start_and_keeps_running
      { envFileStartFails with
        exec := { enabled := true, newOk := false, startOk := true,
                  stopReturns := true } }).1⟩

end MxTrack
